import Mathlib

/-!
Verification development for the SearchUS street-level imagery acquisition
pipeline (GoogleScraper/StreetViewScraper.py).  The Python source is shallowly
embedded below: module-level constants become Lean constants, pure functions
become Lean functions, the network is an explicit oracle argument, and the
side effects of a worker run (metadata fetches, file writes, budget updates,
backoff sleeps) are recorded in an explicit event trace.  Monetary amounts are
modelled as rationals; Python int() truncation toward zero is modelled by
pyInt below.
-/

namespace SVS

/-- Maximum budget in USD (module constant MAX_API_COST). -/
def MAX_API_COST : ℚ := 200

/-- Cost per Street View image request (module constant COST_PER_IMAGE). -/
def COST_PER_IMAGE : ℚ := 7 / 1000

/-- Default value of the retries argument of GetStreetLL. -/
def defaultRetries : ℕ := 3

/-- Python int() applied to a rational: truncation toward zero.  Int division
of numerator by denominator in Lean is T-division, which truncates toward
zero exactly as Python int() does on a float quotient. -/
def pyInt (q : ℚ) : ℤ := q.num.tdiv q.den

/-- The shared budget state: the globals current_cost and api_requests_made. -/
structure BudgetSt where
  cost : ℚ
  reqs : ℤ
deriving DecidableEq

/-- Embedding of update_cost_tracking executed atomically: current_cost
increases by COST_PER_IMAGE and api_requests_made by one. -/
def update_cost_tracking (s : BudgetSt) : BudgetSt :=
  ⟨s.cost + COST_PER_IMAGE, s.reqs + 1⟩

/-- Embedding of check_credit_limit: it returns False exactly when the
remaining budget MAX_API_COST - current_cost is below COST_PER_IMAGE. -/
def check_credit_limit (c : ℚ) : Bool :=
  decide (COST_PER_IMAGE ≤ MAX_API_COST - c)

/-!
Bytecode-level model of update_cost_tracking for the concurrency claim.
The Python statements current_cost += COST_PER_IMAGE and
api_requests_made += 1 are unsynchronized read-modify-write sequences on
globals: each compiles to a load of the global, an add, and a store, and a
thread switch may occur between the load and the store.  A thread therefore
executes four atomic actions: read cost into a register, write register+cost
back, read the request count into a register, write register+1 back. -/

/-- Local state of one thread executing update_cost_tracking: a program
counter (0..4) and the two registers holding the loaded global values. -/
structure ThreadSt where
  pc : ℕ
  regC : ℚ
  regR : ℤ
deriving DecidableEq

/-- One atomic action of a thread running update_cost_tracking against the
shared budget state. -/
def threadStep (g : BudgetSt) (t : ThreadSt) : BudgetSt × ThreadSt :=
  match t.pc with
  | 0 => (g, ⟨1, g.cost, t.regR⟩)
  | 1 => (⟨t.regC + COST_PER_IMAGE, g.reqs⟩, ⟨2, t.regC, t.regR⟩)
  | 2 => (g, ⟨3, t.regC, g.reqs⟩)
  | 3 => (⟨g.cost, t.regR + 1⟩, ⟨4, t.regC, t.regR⟩)
  | _ => (g, t)

/-- Run the indexed thread for one atomic action. -/
def execStep (g : BudgetSt) (ts : List ThreadSt) (i : ℕ) : BudgetSt × List ThreadSt :=
  match ts[i]? with
  | none => (g, ts)
  | some t =>
    let p := threadStep g t
    (p.1, ts.set i p.2)

/-- Execute a schedule: at each step the named thread performs its next
atomic action of update_cost_tracking. -/
def exec (sched : List ℕ) (g : BudgetSt) (ts : List ThreadSt) : BudgetSt × List ThreadSt :=
  sched.foldl (fun p i => execStep p.1 p.2 i) (g, ts)

/-!
Embedding of the acquisition worker GetStreetLL and of MetaParse.  The
external imagery provider is an oracle: for every attempt index it yields the
outcome of the metadata fetch and the outcome of the image download that the
attempt would perform.  MetaParse catches every exception internally and
returns None both on a non-OK status and on any fetch or parse error, so an
oracle outcome carries exactly that distinction. -/

/-- Outcome of one metadata fetch (the urlopen + json parse inside
MetaParse): an OK status with the response fields, a non-OK status, or an
exception during the fetch or parse (HTTP error, timeout, malformed JSON). -/
inductive FetchOutcome where
  | ok (date : Option String) (panoId : String) (lat lon : ℚ)
  | notOk
  | fetchError
deriving DecidableEq

/-- Outcome of one image download (urlretrieve): success, an HTTPError, or
any other exception. -/
inductive DlOutcome where
  | ok
  | httpError
  | otherError
deriving DecidableEq

/-- Embedding of MetaParse: on an OK status it returns the tuple
(date, pano_id, location.lat, location.lng); on a non-OK status or on any
exception it returns None (the except branch swallows the error). -/
def MetaParse : FetchOutcome → Option (Option String × String × ℚ × ℚ)
  | .ok d p la lo => some (d, p, la, lo)
  | .notOk => none
  | .fetchError => none

/-- The metadata tuple returned by a successful worker run:
(date, pano_id, lat, lon, filename) with the resolved coordinates. -/
structure SuccessMeta where
  date : Option String
  panoId : String
  lat : ℚ
  lon : ℚ
  filename : String
deriving DecidableEq

/-- Observable side effects of a worker run: a metadata request issued, an
image fetched and written to disk under the given name, a call to
update_cost_tracking, and the 5-second backoff sleep. -/
inductive Event where
  | metaFetch
  | fileWrite (name : String)
  | costUpdate
  | sleep5
deriving DecidableEq

/-- Rendering of the external float-to-string conversion used by the Python
f-string; the renderer is passed in as an oracle for the runtime float repr. -/
def mkFilename (render : ℚ → String) (lat lon : ℚ) (Head : ℤ) : String :=
  render lat ++ "_" ++ render lon ++ "_" ++ toString Head ++ ".jpg"

/-- The retry loop of GetStreetLL (for attempt in range(retries)).  Each
attempt fetches metadata; a None result (non-OK status or swallowed fetch
error) falls through to the next attempt with no sleep; a usable tuple with a
non-empty pano_id leads to the image download, whose HTTPError sleeps five
seconds and retries, whose other errors return failure at once, and whose
success writes the file, updates cost tracking and returns the metadata with
flag 1.  Exhausting the range returns (None, 0). -/
def runAttempts (render : ℚ → String) (env : ℕ → FetchOutcome × DlOutcome)
    (Head : ℤ) : ℕ → ℕ → (Option SuccessMeta × ℕ) × List Event
  | 0, _ => ((none, 0), [])
  | fuel + 1, idx =>
    match MetaParse (env idx).1 with
    | none =>
      let rest := runAttempts render env Head fuel (idx + 1)
      (rest.1, Event.metaFetch :: rest.2)
    | some (date, pid, la, lo) =>
      if pid = "" then
        let rest := runAttempts render env Head fuel (idx + 1)
        (rest.1, Event.metaFetch :: rest.2)
      else
        match (env idx).2 with
        | .ok =>
          let fn := mkFilename render la lo Head
          ((some ⟨date, pid, la, lo, fn⟩, 1),
            [Event.metaFetch, Event.fileWrite fn, Event.costUpdate])
        | .httpError =>
          let rest := runAttempts render env Head fuel (idx + 1)
          (rest.1, Event.metaFetch :: Event.sleep5 :: rest.2)
        | .otherError => ((none, 0), [Event.metaFetch])

/-- Embedding of GetStreetLL.  A requested coordinate already in
existing_coords is skipped with no events; a failing credit check is skipped
with no events; otherwise the retry loop runs with the network oracle.  The
first component mirrors the Python return value (metadata, flag). -/
def GetStreetLL (render : ℚ → String) (env : ℕ → FetchOutcome × DlOutcome)
    (Lat Lon : ℚ) (Head : ℤ) (existing : List (ℚ × ℚ)) (currentCost : ℚ)
    (retries : ℕ) : (Option SuccessMeta × ℕ) × List Event :=
  if (Lat, Lon) ∈ existing then ((none, 0), [])
  else if check_credit_limit currentCost = false then ((none, 0), [])
  else runAttempts render env Head retries 0

/-!
Embedding of check_existing_images.  A directory is None when it does not
exist and otherwise the list of its filenames.  Python float() is an external
conversion and is passed in as a partial parse oracle; a parse failure is the
caught ValueError. -/

/-- Test that the first list is an initial run of the second; used to model
the Python string operations below over character lists. -/
def strStarts : List Char → List Char → Bool
  | [], _ => true
  | _ :: _, [] => false
  | p :: ps, c :: cs => p = c && strStarts ps cs

/-- Python str.endswith: the pattern is a final run of the string. -/
def strEnds (pat s : List Char) : Bool :=
  strStarts pat.reverse s.reverse

/-- Python str.replace(pat, empty): remove every leftmost non-overlapping
occurrence of the pattern.  The fuel argument only bounds the recursion; any
fuel of at least the string length is exact for a non-empty pattern. -/
def strRemoveAllAux (pat : List Char) : ℕ → List Char → List Char
  | 0, s => s
  | fuel + 1, s =>
    match s with
    | [] => []
    | c :: rest =>
      if strStarts pat s then strRemoveAllAux pat fuel (s.drop pat.length)
      else c :: strRemoveAllAux pat fuel rest

/-- Python str.replace(pat, empty) at adequate fuel. -/
def strRemoveAll (pat s : List Char) : List Char :=
  strRemoveAllAux pat (s.length + 1) s

/-- Python str.split(sep) for a one-character separator: splitting the empty
string yields one empty token, and every separator occurrence opens a new
token. -/
def strSplit (sep : Char) : List Char → List (List Char)
  | [] => [[]]
  | c :: rest =>
    let r := strSplit sep rest
    if c = sep then [] :: r
    else
      match r with
      | t :: ts => (c :: t) :: ts
      | [] => [[c]]

/-- Coordinate extraction from one filename, following the body of the
listdir loop: only names ending in .jpg are considered, every occurrence of
.jpg is removed, the rest is split on underscores, and the first two tokens
must both parse as floats. -/
def parse_coords (pf : String → Option ℚ) (filename : String) : Option (ℚ × ℚ) :=
  if strEnds ".jpg".data filename.data then
    match (strSplit '_' (strRemoveAll ".jpg".data filename.data)).map String.mk with
    | a :: b :: _ =>
      match pf a, pf b with
      | some la, some lo => some (la, lo)
      | _, _ => none
    | _ => none
  else none

/-- Embedding of check_existing_images: fold over the directory listing,
inserting each parsed coordinate pair into the set (modelled as a duplicate-
free list; adding an element already present changes nothing). -/
def check_existing_images (pf : String → Option ℚ) (dir : Option (List String)) :
    List (ℚ × ℚ) :=
  match dir with
  | none => []
  | some files =>
    files.foldl (fun acc fn =>
      match parse_coords pf fn with
      | some p => if p ∈ acc then acc else p :: acc
      | none => acc) []

/-!
Embedding of the road sampler generate_ll_systematic.  A shapely geometry is
modelled by its geometry type tag, its length, and its interpolation map from
an arc-length distance to an (x, y) point; the code reads latitude from
point.y and longitude from point.x.  The uniform random subsample
gdf.sample(n=n_roads) is an oracle argument select. -/

/-- Model of one road geometry from the GeoDataFrame. -/
structure Road where
  geom_type : String
  length : ℚ
  interp : ℚ → ℚ × ℚ

/-- Embedding of generate_ll_systematic: pick int(n2d/2) roads (or the whole
collection when it is not larger), and for every LineString road emit, for
each of max(1, int(length/spacing)) interpolated positions, the four
candidates with headings 2, 92, 182, 272 sharing the position. -/
def generate_ll_systematic (select : List Road → ℕ → List Road)
    (gdf : List Road) (n2d : ℕ) (spacing : ℚ) : List (ℚ × ℚ × ℤ) :=
  let n_roads := n2d / 2
  let roads := if n_roads < gdf.length then select gdf n_roads else gdf
  roads.flatMap fun road =>
    if road.geom_type = "LineString" then
      let road_length := road.length
      let num_points := (max 1 (pyInt (road_length / spacing))).toNat
      (List.range num_points).flatMap fun (i : ℕ) =>
        let point := road.interp ((i : ℚ) * road_length / (num_points : ℚ))
        let lat := point.2
        let lon := point.1
        [(lat, lon, 2), (lat, lon, 92), (lat, lon, 182), (lat, lon, 272)]
    else []

/-- The interpolated positions of one road at equal arc-length intervals, as
(lat, lon) pairs; a specification-side regrouping of the inner loop of
generate_ll_systematic. -/
def road_positions (spacing : ℚ) (road : Road) : List (ℚ × ℚ) :=
  let num_points := (max 1 (pyInt (road.length / spacing))).toNat
  (List.range num_points).map fun (i : ℕ) =>
    let point := road.interp ((i : ℚ) * road.length / (num_points : ℚ))
    (point.2, point.1)

/-- The four cardinal-heading candidates of one position. -/
def quadHeadings (p : ℚ × ℚ) : List (ℚ × ℚ × ℤ) :=
  [(p.1, p.2, 2), (p.1, p.2, 92), (p.1, p.2, 182), (p.1, p.2, 272)]

/-!
Embedding of the orchestrator download_images_from_country.  The network
oracle env maps a position within the submitted batch and an attempt index to
that attempt's outcomes.  The concurrent batch is linearized in submission
order: the as_completed loop is modelled by processing the results one after
the other, applying each worker's recorded budget updates to the shared
state, counting its flag, appending its metadata, and stopping early once the
ceiling max_images_for_country is reached (the break). -/

/-- State of the orchestration loop: the images_downloaded counter, the
shared budget globals, and the accumulated image_list. -/
structure LoopSt where
  downloaded : ℕ
  budget : BudgetSt
  images : List SuccessMeta
deriving DecidableEq

/-- Apply the budget side effects recorded in a worker trace to the shared
budget state: every costUpdate event is one update_cost_tracking call. -/
def applyEvents (b : BudgetSt) (evs : List Event) : BudgetSt :=
  evs.foldl (fun g e => match e with
    | Event.costUpdate => update_cost_tracking g
    | _ => g) b

/-- Process one batch of candidates through the worker, in submission order,
threading the shared budget state, accumulating the events, and breaking out
once downloaded reaches maxImages. -/
def processBatch (render : ℚ → String) (env : ℕ → ℕ → FetchOutcome × DlOutcome)
    (existing : List (ℚ × ℚ)) (maxImages : ℤ) :
    List (ℚ × ℚ × ℤ) → ℕ → LoopSt → LoopSt × List Event
  | [], _, st => (st, [])
  | c :: rest, j, st =>
    let r := GetStreetLL render (env j) c.1 c.2.1 c.2.2 existing st.budget.cost
      defaultRetries
    let st1 : LoopSt :=
      { downloaded := st.downloaded + r.1.2
        budget := applyEvents st.budget r.2
        images := st.images ++ (match r.1.1 with | some m => [m] | none => []) }
    if maxImages ≤ (st1.downloaded : ℤ) then (st1, r.2)
    else
      let p := processBatch render env existing maxImages rest (j + 1) st1
      (p.1, r.2 ++ p.2)

/-- Outcome of one pass of the while loop: the while condition failed, the
sampler returned an empty list (break), or the loop continues with the state
left by the batch. -/
inductive IterOut where
  | exitWhile
  | exitEmpty
  | next (st : LoopSt)
deriving DecidableEq

/-- Events of an orchestrator run: a sampling pass, or a worker event. -/
inductive OEvent where
  | sampled
  | worker (e : Event)
deriving DecidableEq

/-- One pass of the while loop of download_images_from_country: test the
while condition, compute the shrinking request size
n2d = total - int(downloaded/4), sample, stop on an empty sample, otherwise
run the batch.  Inside the loop downloaded < maxImages <= 4*total, so the
truncated subtraction agrees with the Python integer arithmetic there. -/
def orchIterate (render : ℚ → String) (env : ℕ → ℕ → FetchOutcome × DlOutcome)
    (select : List Road → ℕ → List Road) (gdf : List Road) (total : ℕ)
    (maxImages : ℤ) (existing : List (ℚ × ℚ)) (st : LoopSt) :
    IterOut × List OEvent :=
  if (st.downloaded : ℤ) < maxImages then
    let n2d := total - st.downloaded / 4
    let data_list := generate_ll_systematic select gdf n2d 50
    if data_list = [] then (IterOut.exitEmpty, [OEvent.sampled])
    else
      let p := processBatch render env existing maxImages data_list 0 st
      (IterOut.next p.1, OEvent.sampled :: p.2.map OEvent.worker)
  else (IterOut.exitWhile, [])

/-- The while loop, run on explicit fuel; the first component is None when
the fuel ran out before the loop reached a terminal condition. -/
def orchLoop (render : ℚ → String) (env : ℕ → ℕ → FetchOutcome × DlOutcome)
    (select : List Road → ℕ → List Road) (gdf : List Road) (total : ℕ)
    (maxImages : ℤ) (existing : List (ℚ × ℚ)) :
    ℕ → LoopSt → Option LoopSt × List OEvent
  | 0, _ => (none, [])
  | fuel + 1, st =>
    match orchIterate render env select gdf total maxImages existing st with
    | (IterOut.exitWhile, evs) => (some st, evs)
    | (IterOut.exitEmpty, evs) => (some st, evs)
    | (IterOut.next st1, evs) =>
      let p := orchLoop render env select gdf total maxImages existing fuel st1
      (p.1, evs ++ p.2)

/-- The budget pre-step of download_images_from_country, named after the
Budget Tracker operation of the specification: the requested count capped by
int(remaining_budget / COST_PER_IMAGE), exactly the code's
min(total_images_to_download * 4, max_affordable_images). -/
def max_affordable_code (c : ℚ) (requested : ℤ) : ℤ :=
  min requested (pyInt ((MAX_API_COST - c) / COST_PER_IMAGE))

/-- Modelled from the spec: the Budget Tracker contract of section 4.3 reads
max_affordable(requested_count) = min(requested_count,
floor(remaining_budget() / cost_per_request)), with a mathematical floor. -/
def max_affordable_spec (c : ℚ) (requested : ℤ) : ℤ :=
  min requested ⌊(MAX_API_COST - c) / COST_PER_IMAGE⌋

/-- Embedding of download_images_from_country: build the dedup set, compute
max_images_for_country, return at once on a non-positive cap with no events,
and otherwise run the loop from a zero counter and the loaded budget state.
The first component is the final images_downloaded count (None if the fuel
ran out). -/
def download_images_from_country (render : ℚ → String)
    (env : ℕ → ℕ → FetchOutcome × DlOutcome) (select : List Road → ℕ → List Road)
    (pf : String → Option ℚ) (dir : Option (List String)) (gdf : List Road)
    (total : ℕ) (b0 : BudgetSt) (fuel : ℕ) : Option ℕ × List OEvent :=
  let existing := check_existing_images pf dir
  let max_images_for_country := max_affordable_code b0.cost ((total : ℤ) * 4)
  if max_images_for_country ≤ 0 then (some 0, [])
  else
    let p := orchLoop render env select gdf total max_images_for_country existing
      fuel ⟨0, b0, []⟩
    (p.1.map LoopSt.downloaded, p.2)

/-!
Embedding of the metadata flush at the end of main: if image_list is
non-empty a DataFrame with the code's column labels is written as one CSV,
one row per accumulated tuple; an empty list writes nothing. -/

/-- The tabular metadata artifact: its column labels and its rows. -/
structure MetaCsv where
  header : List String
  rows : List SuccessMeta
deriving DecidableEq

/-- Column labels used by the code when building the DataFrame. -/
def metadata_columns : List String :=
  ["date", "pano_id", "lat", "lon", "filename"]

/-- Modelled from the spec: the column list named by sections 4.6 and 6 of
the specification for the metadata output file. -/
def metadata_columns_spec : List String :=
  ["date", "panorama_id", "lat", "lon", "filename"]

/-- Embedding of the end-of-run flush in main: no file when image_list is
empty, otherwise one table with the code's columns and all accumulated
rows. -/
def save_metadata (image_list : List SuccessMeta) : Option MetaCsv :=
  if image_list.isEmpty then none
  else some ⟨metadata_columns, image_list⟩

/-!
Theorems.
-/

/-- C1: update_cost_tracking is an unsynchronized read-modify-write on the
globals current_cost and api_requests_made, executed by concurrent pool
threads.  The schedule below interleaves two complete calls starting from the
state (0, 0): both threads read current_cost before either writes it back, so
one cost increment is lost and the final state is (COST_PER_IMAGE, 2) where
the claim requires (0 + 2 * COST_PER_IMAGE, 0 + 2).  Every thread runs to
completion (program counter 4), so these are two whole record_success
calls. -/
theorem update_cost_tracking_race :
    (exec [0, 1, 0, 1, 0, 0, 1, 1] ⟨0, 0⟩ [⟨0, 0, 0⟩, ⟨0, 0, 0⟩]).1 =
      ⟨COST_PER_IMAGE, 2⟩ ∧
    (∀ t ∈ (exec [0, 1, 0, 1, 0, 0, 1, 1] ⟨0, 0⟩ [⟨0, 0, 0⟩, ⟨0, 0, 0⟩]).2,
      t.pc = 4) ∧
    (⟨COST_PER_IMAGE, 2⟩ : BudgetSt) ≠ ⟨0 + 2 * COST_PER_IMAGE, 0 + 2⟩ := by
  refine ⟨?_, ?_, ?_⟩
  · norm_num [exec, execStep, threadStep]
  · norm_num [exec, execStep, threadStep]
  · simp only [ne_eq, BudgetSt.mk.injEq, not_and]
    intro h
    exfalso
    rw [COST_PER_IMAGE] at h
    norm_num at h

/-- The truncation pyInt agrees with the mathematical floor on nonnegative
rationals. -/
theorem pyInt_eq_floor_of_nonneg {q : ℚ} (h : 0 ≤ q) : pyInt q = ⌊q⌋ := by
  rw [pyInt, Rat.floor_def]
  exact Int.tdiv_eq_ediv (Rat.num_nonneg.mpr h) (by positivity)

/-- C3 counterexample: the code computes the affordable count with Python
int(), which truncates toward zero, not with floor.  With current_cost
200 + 7/2000 the remaining budget is -7/2000 and the quotient is -1/2: the
code yields min(20000, 0) = 0 while the claimed formula yields
min(20000, -1) = -1, so the two disagree.  (The downstream consequence,
terminating with zero images, is unaffected at this input, but the claimed
equality itself is false.) -/
theorem max_affordable_trunc_cex :
    max_affordable_code (200 + 7 / 2000) 20000 = 0 ∧
    max_affordable_spec (200 + 7 / 2000) 20000 = -1 ∧
    max_affordable_code (200 + 7 / 2000) 20000 ≠
      max_affordable_spec (200 + 7 / 2000) 20000 := by
  refine ⟨?_, ?_, ?_⟩
  · norm_num [max_affordable_code, pyInt, MAX_API_COST, COST_PER_IMAGE]
    decide
  · norm_num [max_affordable_spec, MAX_API_COST, COST_PER_IMAGE]
  · norm_num [max_affordable_code, max_affordable_spec, pyInt, MAX_API_COST,
      COST_PER_IMAGE]
    decide

/-- C3 amended: the orchestrator pre-step computes
min(requested, int(remaining / cost)) with truncation toward zero; this
agrees with the claimed floor formula whenever the remaining budget is
nonnegative, and whenever the resulting cap is non-positive the run returns
at once with zero images and an empty event trace, so no sampling pass and no
network call happens. -/
theorem max_affordable_amended :
    (∀ (c : ℚ) (req : ℤ), 0 ≤ MAX_API_COST - c →
      max_affordable_code c req = max_affordable_spec c req) ∧
    (∀ (render : ℚ → String) (env : ℕ → ℕ → FetchOutcome × DlOutcome)
      (select : List Road → ℕ → List Road) (pf : String → Option ℚ)
      (dir : Option (List String)) (gdf : List Road) (total : ℕ)
      (b0 : BudgetSt) (fuel : ℕ),
      max_affordable_code b0.cost ((total : ℤ) * 4) ≤ 0 →
      download_images_from_country render env select pf dir gdf total b0 fuel =
        (some 0, [])) := by
  constructor
  · intro c req h
    rw [max_affordable_code, max_affordable_spec,
      pyInt_eq_floor_of_nonneg (q := (MAX_API_COST - c) / COST_PER_IMAGE)]
    exact div_nonneg h (by norm_num [COST_PER_IMAGE])
  · intro render env select pf dir gdf total b0 fuel h
    simp only [download_images_from_country, if_pos h]

/-- Witness for the amended C3 at concrete inputs: with zero spend the two
formulas agree, and with a loaded cost of 300 the cap is negative and the
orchestrator returns zero images with no events. -/
theorem max_affordable_amended_witness :
    max_affordable_code 0 20000 = max_affordable_spec 0 20000 ∧
    download_images_from_country (fun _ => "")
      (fun _ _ => (FetchOutcome.notOk, DlOutcome.ok)) (fun g _ => g)
      (fun _ => none) none [] 5000 ⟨300, 0⟩ 7 = (some 0, []) := by
  constructor
  · exact max_affordable_amended.1 0 20000 (by norm_num [MAX_API_COST])
  · refine max_affordable_amended.2 _ _ _ _ _ _ _ _ _ ?_
    norm_num [max_affordable_code, pyInt, MAX_API_COST, COST_PER_IMAGE]
    decide

/-- C9 counterexample: the DataFrame column labels written by main are
date, pano_id, lat, lon, filename, while the claim names the second column
panorama_id; the flush of a single accumulated record produces a table whose
header differs from the claimed column list. -/
theorem metadata_columns_cex :
    save_metadata [⟨none, "p", 0, 0, "f"⟩] =
      some ⟨metadata_columns, [⟨none, "p", 0, 0, "f"⟩]⟩ ∧
    metadata_columns ≠ metadata_columns_spec := by
  constructor
  · rfl
  · decide

/-- C9 amended: the end-of-run flush writes no file when the accumulated
record list is empty, and otherwise writes exactly one table whose header is
the column list date, pano_id, lat, lon, filename and whose rows are the
accumulated success records, one row per record and in order. -/
theorem save_metadata_amended :
    save_metadata [] = none ∧
    (∀ l : List SuccessMeta, l ≠ [] →
      save_metadata l = some ⟨["date", "pano_id", "lat", "lon", "filename"], l⟩) := by
  constructor
  · rfl
  · intro l h
    rw [save_metadata, if_neg (by simpa using h)]
    rfl

/-- Characterization of one step of the listdir loop: a filename contributes
the pair p exactly when it ends in .jpg, splitting the name with the .jpg
occurrences removed yields at least two tokens, and the first two tokens
parse to the components of p. -/
theorem parse_coords_eq_some (pf : String → Option ℚ) (fn : String) (p : ℚ × ℚ) :
    parse_coords pf fn = some p ↔
      strEnds ".jpg".data fn.data = true ∧
      ∃ a b rest,
        (strSplit '_' (strRemoveAll ".jpg".data fn.data)).map String.mk =
          a :: b :: rest ∧
        pf a = some p.1 ∧ pf b = some p.2 := by
  unfold parse_coords
  cases hend : strEnds ".jpg".data fn.data with
  | false => simp [hend]
  | true =>
    simp only [hend, if_true, true_and]
    rcases hts : (strSplit '_' (strRemoveAll ".jpg".data fn.data)).map String.mk with
      _ | ⟨a, _ | ⟨b, rest⟩⟩
    · simp [hts]
    · simp [hts]
    · rcases hpa : pf a with _ | la <;> rcases hpb : pf b with _ | lb <;>
        (simp [hts, hpa, hpb, Prod.ext_iff]; try aesop)

/-- Membership in the insert fold that builds the coordinate set. -/
theorem mem_coords_foldl (pf : String → Option ℚ) (files : List String)
    (acc : List (ℚ × ℚ)) (p : ℚ × ℚ) :
    p ∈ files.foldl (fun acc fn =>
        match parse_coords pf fn with
        | some q => if q ∈ acc then acc else q :: acc
        | none => acc) acc ↔
      p ∈ acc ∨ ∃ fn ∈ files, parse_coords pf fn = some p := by
  induction files generalizing acc with
  | nil => simp
  | cons fn fs ih =>
    simp only [List.foldl_cons, ih, List.mem_cons]
    rcases h : parse_coords pf fn with _ | q
    · simp [h]
    · by_cases hq : q ∈ acc <;> simp [h, hq] <;> aesop

/-- The insert fold keeps the list duplicate-free. -/
theorem nodup_coords_foldl (pf : String → Option ℚ) (files : List String)
    (acc : List (ℚ × ℚ)) (h : acc.Nodup) :
    (files.foldl (fun acc fn =>
        match parse_coords pf fn with
        | some q => if q ∈ acc then acc else q :: acc
        | none => acc) acc).Nodup := by
  induction files generalizing acc with
  | nil => simpa
  | cons fn fs ih =>
    simp only [List.foldl_cons]
    rcases hp : parse_coords pf fn with _ | q
    · simp only [hp]
      exact ih acc h
    · simp only [hp]
      by_cases hq : q ∈ acc
      · simp only [if_pos hq]
        exact ih acc h
      · simp only [if_neg hq]
        exact ih _ (List.nodup_cons.mpr ⟨hq, h⟩)

/-- C6: for any float parser, a missing directory yields the empty set; the
set built from an existing directory contains a pair exactly when some
filename of the directory ends in .jpg, splits (after removing the .jpg
occurrences) into at least two underscore-delimited tokens, and has its first
two tokens parse to the pair; the result is duplicate-free, so malformed
names are skipped and each coordinate pair appears once. -/
theorem check_existing_images_spec (pf : String → Option ℚ) :
    check_existing_images pf none = [] ∧
    (∀ (files : List String) (p : ℚ × ℚ),
      p ∈ check_existing_images pf (some files) ↔
        ∃ fn ∈ files,
          strEnds ".jpg".data fn.data = true ∧
          ∃ a b rest,
            (strSplit '_' (strRemoveAll ".jpg".data fn.data)).map String.mk =
              a :: b :: rest ∧
            pf a = some p.1 ∧ pf b = some p.2) ∧
    (∀ dir, (check_existing_images pf dir).Nodup) := by
  refine ⟨rfl, ?_, ?_⟩
  · intro files p
    rw [check_existing_images, mem_coords_foldl]
    simp only [List.not_mem_nil, false_or]
    constructor
    · rintro ⟨fn, hfn, hp⟩
      exact ⟨fn, hfn, (parse_coords_eq_some pf fn p).mp hp⟩
    · rintro ⟨fn, hfn, hp⟩
      exact ⟨fn, hfn, (parse_coords_eq_some pf fn p).mpr hp⟩
  · intro dir
    cases dir with
    | none => simp [check_existing_images]
    | some files => exact nodup_coords_foldl pf files [] List.nodup_nil

/-- Witness for C6: applying the characterization at a concrete parser and a
concrete two-file directory listing with one well-formed and one malformed
name. -/
theorem check_existing_images_spec_witness :
    check_existing_images (fun s => if s = "1" then some 1 else none) none = [] ∧
    ((1 : ℚ), (1 : ℚ)) ∈ check_existing_images
      (fun s => if s = "1" then some 1 else none)
      (some ["1_1_92.jpg", "nonsense.jpg"]) := by
  constructor
  · exact (check_existing_images_spec (fun s => if s = "1" then some 1 else none)).1
  · refine ((check_existing_images_spec
      (fun s => if s = "1" then some 1 else none)).2.1
      ["1_1_92.jpg", "nonsense.jpg"] (1, 1)).mpr ?_
    refine ⟨"1_1_92.jpg", by simp, by decide, "1", "1", ["92"], by decide, ?_, ?_⟩
    · simp
    · simp

/-- Expanding a position list into candidates multiplies the length by four. -/
theorem length_flatMap_quad (ps : List (ℚ × ℚ)) :
    (ps.flatMap quadHeadings).length = 4 * ps.length := by
  induction ps with
  | nil => simp
  | cons p ps ih =>
    simp only [List.flatMap_cons, List.length_append, ih, quadHeadings]
    simp
    omega

/-- C7: the sampler selects int(n2d/2) roads when the collection is larger
and the whole collection otherwise; its output is exactly the per-road
position lists (each of length max(1, int(length/spacing)), interpolated at
equal arc-length intervals i*length/num_points) expanded position by
position into the four candidates with headings 2, 92, 182, 272 sharing the
position; consequently the number of emitted candidates is a multiple of
four.  The selection oracle is assumed to return the requested number of
roads, as gdf.sample(n) does. -/
theorem generate_ll_systematic_spec (select : List Road → ℕ → List Road)
    (gdf : List Road) (n2d : ℕ) (spacing : ℚ)
    (hsel : n2d / 2 < gdf.length → (select gdf (n2d / 2)).length = n2d / 2) :
    ((if n2d / 2 < gdf.length then select gdf (n2d / 2) else gdf).length =
      min (n2d / 2) gdf.length) ∧
    generate_ll_systematic select gdf n2d spacing =
      ((if n2d / 2 < gdf.length then select gdf (n2d / 2) else gdf).flatMap
        (fun r => if r.geom_type = "LineString" then road_positions spacing r
          else [])).flatMap quadHeadings ∧
    (∀ r : Road, (road_positions spacing r).length =
      (max 1 (pyInt (r.length / spacing))).toNat) ∧
    4 ∣ (generate_ll_systematic select gdf n2d spacing).length := by
  have hstruct : generate_ll_systematic select gdf n2d spacing =
      ((if n2d / 2 < gdf.length then select gdf (n2d / 2) else gdf).flatMap
        (fun r => if r.geom_type = "LineString" then road_positions spacing r
          else [])).flatMap quadHeadings := by
    rw [generate_ll_systematic, List.flatMap_assoc]
    congr 1
    funext r
    by_cases hls : r.geom_type = "LineString"
    · simp only [hls, if_true, road_positions, List.flatMap_map]
      rfl
    · simp [hls]
  refine ⟨?_, hstruct, ?_, ?_⟩
  · by_cases hlen : n2d / 2 < gdf.length
    · rw [if_pos hlen, hsel hlen]
      omega
    · rw [if_neg hlen]
      omega
  · intro r
    simp [road_positions]
  · rw [hstruct, length_flatMap_quad]
    exact Dvd.intro _ rfl

/-- Witness for C7: one straight LineString road of length 50 sampled at a
50 meter spacing contributes one position, hence exactly four candidates. -/
theorem generate_ll_systematic_spec_witness :
    4 ∣ (generate_ll_systematic (fun g n => g.take n)
      [⟨"LineString", 50, fun d => (d, 0)⟩] 2 50).length ∧
    (generate_ll_systematic (fun g n => g.take n)
      [⟨"LineString", 50, fun d => (d, 0)⟩] 2 50).length = 4 := by
  constructor
  · exact (generate_ll_systematic_spec (fun g n => g.take n)
      [⟨"LineString", 50, fun d => (d, 0)⟩] 2 50
      (fun h => absurd h (by decide))).2.2.2
  · norm_num [generate_ll_systematic, pyInt, List.range_succ]

/-- When every metadata fetch yields None (non-OK status), the retry loop
re-issues the lookup once per remaining attempt, with no sleep, no file write
and no cost update, and ends in failure. -/
theorem runAttempts_all_none (render : ℚ → String)
    (env : ℕ → FetchOutcome × DlOutcome) (Head : ℤ)
    (hall : ∀ i, (env i).1 = FetchOutcome.notOk) :
    ∀ fuel idx, runAttempts render env Head fuel idx =
      ((none, 0), List.replicate fuel Event.metaFetch) := by
  intro fuel
  induction fuel with
  | zero => intro idx; rfl
  | succ n ih =>
    intro idx
    simp only [runAttempts, hall idx, MetaParse, ih (idx + 1), List.replicate_succ]

/-- C4 counterexample: a candidate whose first metadata lookup returns a
non-OK status is not failed immediately; the loop re-issues the lookup, and
when the second attempt resolves, the worker downloads the image, updates the
budget and returns success.  The trace holds two metadata fetches, a file
write and a cost update, refuting immediately-returned Failure, no file and
unchanged budget. -/
theorem meta_notOk_cex :
    GetStreetLL (fun _ => "9.0")
      (fun i => if i = 0 then (FetchOutcome.notOk, DlOutcome.ok)
        else (FetchOutcome.ok none "pid" 9 9, DlOutcome.ok))
      1 2 92 [] 0 3 =
      ((some ⟨none, "pid", 9, 9, "9.0_9.0_92.jpg"⟩, 1),
        [Event.metaFetch, Event.metaFetch, Event.fileWrite "9.0_9.0_92.jpg",
          Event.costUpdate]) ∧
    ((fun i => if i = 0 then (FetchOutcome.notOk, DlOutcome.ok)
        else (FetchOutcome.ok none "pid" 9 9, DlOutcome.ok)) 0).1 =
      FetchOutcome.notOk := by
  constructor
  · norm_num [GetStreetLL, check_credit_limit, MAX_API_COST, COST_PER_IMAGE,
      runAttempts, MetaParse, mkFilename]
    decide
  · rfl

/-- C4 amended: when every metadata lookup of a candidate returns a non-OK
status, the worker re-issues the lookup once per attempt (up to retries,
without any backoff sleep) and then returns Failure, having written no file
and left the budget unchanged. -/
theorem meta_notOk_amended (render : ℚ → String)
    (env : ℕ → FetchOutcome × DlOutcome) (Lat Lon : ℚ) (Head : ℤ)
    (existing : List (ℚ × ℚ)) (cost : ℚ) (retries : ℕ)
    (hmem : (Lat, Lon) ∉ existing) (hcred : check_credit_limit cost = true)
    (hall : ∀ i, (env i).1 = FetchOutcome.notOk) :
    GetStreetLL render env Lat Lon Head existing cost retries =
      ((none, 0), List.replicate retries Event.metaFetch) ∧
    (∀ s, Event.fileWrite s ∉ List.replicate retries Event.metaFetch) ∧
    Event.costUpdate ∉ List.replicate retries Event.metaFetch ∧
    Event.sleep5 ∉ List.replicate retries Event.metaFetch := by
  refine ⟨?_, ?_, ?_, ?_⟩
  · rw [GetStreetLL, if_neg hmem, hcred]
    simp only [Bool.true_eq_false, if_false]
    exact runAttempts_all_none render env Head hall retries 0
  · intro s h
    have h2 := List.eq_of_mem_replicate h
    simp at h2
  · intro h
    have h2 := List.eq_of_mem_replicate h
    simp at h2
  · intro h
    have h2 := List.eq_of_mem_replicate h
    simp at h2

/-- Witness for the amended C4 at three all-non-OK attempts. -/
theorem meta_notOk_amended_witness :
    GetStreetLL (fun _ => "") (fun _ => (FetchOutcome.notOk, DlOutcome.ok))
      1 2 92 [] 0 3 =
      ((none, 0), [Event.metaFetch, Event.metaFetch, Event.metaFetch]) := by
  have h := (meta_notOk_amended (fun _ => "")
    (fun _ => (FetchOutcome.notOk, DlOutcome.ok)) 1 2 92 [] 0 3
    (by simp) (by norm_num [check_credit_limit, MAX_API_COST, COST_PER_IMAGE])
    (fun _ => rfl)).1
  simpa using h

/-- C5 counterexample: a transient network failure during the metadata
lookup (an HTTP error raised inside MetaParse) is swallowed and retried at
once: the worker issues three lookups with no 5-second backoff anywhere in
the trace, and the failure is not returned after the first unexpected error
either. -/
theorem worker_retry_cex :
    GetStreetLL (fun _ => "")
      (fun _ => (FetchOutcome.fetchError, DlOutcome.ok)) 1 2 92 [] 0 3 =
      ((none, 0), [Event.metaFetch, Event.metaFetch, Event.metaFetch]) ∧
    Event.sleep5 ∉ [Event.metaFetch, Event.metaFetch, Event.metaFetch] := by
  constructor
  · norm_num [GetStreetLL, check_credit_limit, MAX_API_COST, COST_PER_IMAGE,
      runAttempts, MetaParse]
  · decide

/-- When every attempt resolves metadata but the download raises HTTPError,
each attempt sleeps five seconds and retries from the metadata lookup, and
the loop ends in failure after the whole range. -/
theorem runAttempts_all_httpError (render : ℚ → String)
    (env : ℕ → FetchOutcome × DlOutcome) (Head : ℤ)
    (hmeta : ∀ i, ∃ d p la lo,
      (env i).1 = FetchOutcome.ok d p la lo ∧ p ≠ "")
    (hdl : ∀ i, (env i).2 = DlOutcome.httpError) :
    ∀ fuel idx, runAttempts render env Head fuel idx =
      ((none, 0),
        (List.replicate fuel [Event.metaFetch, Event.sleep5]).flatten) := by
  intro fuel
  induction fuel with
  | zero => intro idx; rfl
  | succ n ih =>
    intro idx
    obtain ⟨d, p, la, lo, hf, hp⟩ := hmeta idx
    simp only [runAttempts, hf, MetaParse, if_neg hp, hdl idx, ih (idx + 1),
      List.replicate_succ, List.flatten_cons]
    rfl

/-- Every run performs at most one metadata lookup per attempt of the
range. -/
theorem runAttempts_count_le (render : ℚ → String)
    (env : ℕ → FetchOutcome × DlOutcome) (Head : ℤ) :
    ∀ fuel idx,
      (runAttempts render env Head fuel idx).2.count Event.metaFetch ≤ fuel := by
  intro fuel
  induction fuel with
  | zero => intro idx; simp [runAttempts]
  | succ n ih =>
    intro idx
    have hrec := ih (idx + 1)
    rcases h1 : (env idx).1 with ⟨d, p, la, lo⟩ | _ | _
    · by_cases hp : p = ""
      · simp only [runAttempts, h1, MetaParse, if_pos hp, List.count_cons]
        simp only [beq_self_eq_true, if_true]
        omega
      · rcases h2 : (env idx).2 with _ | _ | _
        · simp [runAttempts, h1, MetaParse, if_neg hp, h2, List.count_cons]
        · simp only [runAttempts, h1, MetaParse, if_neg hp, h2,
            List.count_cons]
          simp
          omega
        · simp [runAttempts, h1, MetaParse, if_neg hp, h2]
    · simp only [runAttempts, h1, MetaParse, List.count_cons]
      simp
      omega
    · simp only [runAttempts, h1, MetaParse, List.count_cons]
      simp
      omega

/-- C5 amended: an HTTPError raised by the image download triggers the fixed
5-second backoff and a retry from the metadata lookup, once per attempt of
the range, and exhausting all retries returns Failure; an unexpected
(non-HTTP) download error returns Failure immediately after the single
lookup of that attempt; and no run issues more metadata lookups than
retries.  HTTP errors during the metadata fetch itself are swallowed inside
MetaParse and retried with no backoff (see the counterexample). -/
theorem worker_retry_amended :
    (∀ (render : ℚ → String) (env : ℕ → FetchOutcome × DlOutcome)
      (Lat Lon : ℚ) (Head : ℤ) (existing : List (ℚ × ℚ)) (cost : ℚ)
      (retries : ℕ), (Lat, Lon) ∉ existing → check_credit_limit cost = true →
      (∀ i, ∃ d p la lo, (env i).1 = FetchOutcome.ok d p la lo ∧ p ≠ "") →
      (∀ i, (env i).2 = DlOutcome.httpError) →
      GetStreetLL render env Lat Lon Head existing cost retries =
        ((none, 0),
          (List.replicate retries [Event.metaFetch, Event.sleep5]).flatten)) ∧
    (∀ (render : ℚ → String) (env : ℕ → FetchOutcome × DlOutcome)
      (Lat Lon : ℚ) (Head : ℤ) (existing : List (ℚ × ℚ)) (cost : ℚ)
      (retries : ℕ) (d : Option String) (p : String) (la lo : ℚ),
      (Lat, Lon) ∉ existing → check_credit_limit cost = true →
      (env 0).1 = FetchOutcome.ok d p la lo → p ≠ "" →
      (env 0).2 = DlOutcome.otherError → 0 < retries →
      GetStreetLL render env Lat Lon Head existing cost retries =
        ((none, 0), [Event.metaFetch])) ∧
    (∀ (render : ℚ → String) (env : ℕ → FetchOutcome × DlOutcome)
      (Lat Lon : ℚ) (Head : ℤ) (existing : List (ℚ × ℚ)) (cost : ℚ)
      (retries : ℕ),
      (GetStreetLL render env Lat Lon Head existing cost retries).2.count
        Event.metaFetch ≤ retries) := by
  refine ⟨?_, ?_, ?_⟩
  · intro render env Lat Lon Head existing cost retries hmem hcred hmeta hdl
    rw [GetStreetLL, if_neg hmem, hcred]
    simp only [Bool.true_eq_false, if_false]
    exact runAttempts_all_httpError render env Head hmeta hdl retries 0
  · intro render env Lat Lon Head existing cost retries d p la lo hmem hcred
      hf hp hdl hpos
    rw [GetStreetLL, if_neg hmem, hcred]
    simp only [Bool.true_eq_false, if_false]
    obtain ⟨n, rfl⟩ : ∃ n, retries = n + 1 :=
      ⟨retries - 1, by omega⟩
    simp only [runAttempts, hf, MetaParse, if_neg hp, hdl]
  · intro render env Lat Lon Head existing cost retries
    rw [GetStreetLL]
    by_cases hmem : (Lat, Lon) ∈ existing
    · simp [hmem]
    · rw [if_neg hmem]
      by_cases hcred : check_credit_limit cost = false
      · simp [hcred]
      · rw [if_neg hcred]
        exact runAttempts_count_le render env Head retries 0

/-- Witness for the amended C5: with metadata resolving on every attempt and
the download raising HTTPError each time, three attempts alternate lookup
and backoff and end in failure; with an unexpected download error the run
fails after one lookup; the lookup count never exceeds the retry bound. -/
theorem worker_retry_amended_witness :
    GetStreetLL (fun _ => "")
      (fun _ => (FetchOutcome.ok none "p" 0 0, DlOutcome.httpError))
      1 2 92 [] 0 3 =
      ((none, 0), [Event.metaFetch, Event.sleep5, Event.metaFetch,
        Event.sleep5, Event.metaFetch, Event.sleep5]) ∧
    GetStreetLL (fun _ => "")
      (fun _ => (FetchOutcome.ok none "p" 0 0, DlOutcome.otherError))
      1 2 92 [] 0 3 = ((none, 0), [Event.metaFetch]) ∧
    (GetStreetLL (fun _ => "")
      (fun _ => (FetchOutcome.ok none "p" 0 0, DlOutcome.httpError))
      1 2 92 [] 0 3).2.count Event.metaFetch ≤ 3 := by
  refine ⟨?_, ?_, ?_⟩
  · have h := worker_retry_amended.1 (fun _ => "")
      (fun _ => (FetchOutcome.ok none "p" 0 0, DlOutcome.httpError))
      1 2 92 [] 0 3 (by simp)
      (by norm_num [check_credit_limit, MAX_API_COST, COST_PER_IMAGE])
      (fun i => ⟨none, "p", 0, 0, rfl, by simp⟩) (fun i => rfl)
    simpa using h
  · exact worker_retry_amended.2.1 (fun _ => "")
      (fun _ => (FetchOutcome.ok none "p" 0 0, DlOutcome.otherError))
      1 2 92 [] 0 3 none "p" 0 0 (by simp)
      (by norm_num [check_credit_limit, MAX_API_COST, COST_PER_IMAGE])
      rfl (by simp) rfl (by omega)
  · exact worker_retry_amended.2.2 (fun _ => "")
      (fun _ => (FetchOutcome.ok none "p" 0 0, DlOutcome.httpError))
      1 2 92 [] 0 3

/-- MetaParse yields a tuple exactly when the fetch returned an OK status
with those fields. -/
theorem MetaParse_eq_some (f : FetchOutcome) (d : Option String) (p : String)
    (la lo : ℚ) :
    MetaParse f = some (d, p, la, lo) ↔ f = FetchOutcome.ok d p la lo := by
  cases f <;> simp [MetaParse]

/-- A successful retry loop ends on an attempt whose metadata fetch returned
an OK status with the success tuple's fields: the flag is one, the filename
is rendered from the tuple's own (resolved) coordinates, and that file was
written. -/
theorem runAttempts_success (render : ℚ → String)
    (env : ℕ → FetchOutcome × DlOutcome) (Head : ℤ) :
    ∀ (fuel idx : ℕ) (m : SuccessMeta) (fl : ℕ) (evs : List Event),
      runAttempts render env Head fuel idx = ((some m, fl), evs) →
      fl = 1 ∧ m.filename = mkFilename render m.lat m.lon Head ∧
      Event.fileWrite m.filename ∈ evs ∧
      ∃ i, idx ≤ i ∧ i < idx + fuel ∧
        (env i).1 = FetchOutcome.ok m.date m.panoId m.lat m.lon ∧
        m.panoId ≠ "" ∧ (env i).2 = DlOutcome.ok := by
  intro fuel
  induction fuel with
  | zero => intro idx m fl evs h; simp [runAttempts] at h
  | succ n ih =>
    intro idx m fl evs h
    rw [runAttempts] at h
    rcases hMP : MetaParse (env idx).1 with _ | ⟨d, p, la, lo⟩
    · simp only [hMP] at h
      have ha := congrArg Prod.fst h
      have hb := congrArg Prod.snd h
      dsimp only at ha hb
      have hrec : runAttempts render env Head n (idx + 1) =
          ((some m, fl), (runAttempts render env Head n (idx + 1)).2) := by
        rw [← ha]
      obtain ⟨hfl, hfn, hmem, i, hi1, hi2, h3, h4, h5⟩ :=
        ih (idx + 1) m fl _ hrec
      subst hb
      exact ⟨hfl, hfn, List.mem_cons_of_mem _ hmem, i, by omega, by omega,
        h3, h4, h5⟩
    · simp only [hMP] at h
      by_cases hp : p = ""
      · rw [if_pos hp] at h
        have ha := congrArg Prod.fst h
        have hb := congrArg Prod.snd h
        dsimp only at ha hb
        have hrec : runAttempts render env Head n (idx + 1) =
            ((some m, fl), (runAttempts render env Head n (idx + 1)).2) := by
          rw [← ha]
        obtain ⟨hfl, hfn, hmem, i, hi1, hi2, h3, h4, h5⟩ :=
          ih (idx + 1) m fl _ hrec
        subst hb
        exact ⟨hfl, hfn, List.mem_cons_of_mem _ hmem, i, by omega, by omega,
          h3, h4, h5⟩
      · rw [if_neg hp] at h
        rcases hdl : (env idx).2 with _ | _ | _
        · simp only [hdl] at h
          have ha := congrArg Prod.fst h
          have hb := congrArg Prod.snd h
          dsimp only at ha hb
          have haa := congrArg Prod.fst ha
          have hab := congrArg Prod.snd ha
          dsimp only at haa hab
          obtain rfl : (⟨d, p, la, lo, mkFilename render la lo Head⟩ :
              SuccessMeta) = m := Option.some_injective _ haa
          refine ⟨hab.symm, rfl, ?_, idx, le_refl idx, by omega,
            (MetaParse_eq_some _ _ _ _ _).mp hMP, hp, hdl⟩
          rw [← hb]
          simp
        · simp only [hdl] at h
          have ha := congrArg Prod.fst h
          have hb := congrArg Prod.snd h
          dsimp only at ha hb
          have hrec : runAttempts render env Head n (idx + 1) =
              ((some m, fl), (runAttempts render env Head n (idx + 1)).2) := by
            rw [← ha]
          obtain ⟨hfl, hfn, hmem, i, hi1, hi2, h3, h4, h5⟩ :=
            ih (idx + 1) m fl _ hrec
          subst hb
          exact ⟨hfl, hfn,
            List.mem_cons_of_mem _ (List.mem_cons_of_mem _ hmem), i, by omega,
            by omega, h3, h4, h5⟩
        · simp only [hdl] at h
          have ha := congrArg Prod.fst h
          have hb := congrArg Prod.snd h
          dsimp only at ha hb
          have haa := congrArg Prod.fst ha
          have hab := congrArg Prod.snd ha
          dsimp only at haa hab
          simp at haa

/-- C8: whenever GetStreetLL returns a success, the success flag is one, the
returned tuple carries the resolved latitude and longitude of the OK
metadata response of some attempt within the retry range, the output
filename is rendered from those resolved coordinates (and the requested
coordinates appear nowhere in it), and exactly that file was written. -/
theorem GetStreetLL_resolved (render : ℚ → String)
    (env : ℕ → FetchOutcome × DlOutcome) (Lat Lon : ℚ) (Head : ℤ)
    (existing : List (ℚ × ℚ)) (cost : ℚ) (retries : ℕ) (m : SuccessMeta)
    (fl : ℕ) (evs : List Event)
    (h : GetStreetLL render env Lat Lon Head existing cost retries =
      ((some m, fl), evs)) :
    fl = 1 ∧ m.filename = mkFilename render m.lat m.lon Head ∧
    Event.fileWrite m.filename ∈ evs ∧
    ∃ i, i < retries ∧
      (env i).1 = FetchOutcome.ok m.date m.panoId m.lat m.lon ∧
      m.panoId ≠ "" ∧ (env i).2 = DlOutcome.ok := by
  rw [GetStreetLL] at h
  by_cases hmem : (Lat, Lon) ∈ existing
  · rw [if_pos hmem] at h
    exact absurd h (by simp)
  · rw [if_neg hmem] at h
    by_cases hcred : check_credit_limit cost = false
    · rw [if_pos hcred] at h
      exact absurd h (by simp)
    · rw [if_neg hcred] at h
      obtain ⟨hfl, hfn, hev, i, hi1, hi2, h3, h4, h5⟩ :=
        runAttempts_success render env Head retries 0 m fl evs h
      exact ⟨hfl, hfn, hev, i, by omega, h3, h4, h5⟩

/-- Witness for C8: a request at (1, 2) resolved by the provider to (9, 9)
produces the filename rendered from (9, 9), not from the request. -/
theorem GetStreetLL_resolved_witness :
    (1 : ℕ) = 1 ∧
    (⟨none, "p8", 9, 9, "9.0_9.0_92.jpg"⟩ : SuccessMeta).filename =
      mkFilename (fun _ => "9.0") (9 : ℚ) (9 : ℚ) 92 ∧
    Event.fileWrite "9.0_9.0_92.jpg" ∈
      [Event.metaFetch, Event.fileWrite "9.0_9.0_92.jpg", Event.costUpdate] ∧
    ∃ i, i < 3 ∧
      ((fun (_ : ℕ) => (FetchOutcome.ok none "p8" (9 : ℚ) (9 : ℚ),
        DlOutcome.ok)) i).1 = FetchOutcome.ok none "p8" 9 9 ∧
      ("p8" : String) ≠ "" ∧
      ((fun (_ : ℕ) => (FetchOutcome.ok none "p8" (9 : ℚ) (9 : ℚ),
        DlOutcome.ok)) i).2 = DlOutcome.ok := by
  have h : GetStreetLL (fun _ => "9.0")
      (fun _ => (FetchOutcome.ok none "p8" (9 : ℚ) (9 : ℚ), DlOutcome.ok))
      1 2 92 [] 0 3 =
      ((some ⟨none, "p8", 9, 9, "9.0_9.0_92.jpg"⟩, 1),
        [Event.metaFetch, Event.fileWrite "9.0_9.0_92.jpg",
          Event.costUpdate]) := by
    norm_num [GetStreetLL, check_credit_limit, MAX_API_COST, COST_PER_IMAGE,
      runAttempts, MetaParse, mkFilename]
    decide
  exact GetStreetLL_resolved (fun _ => "9.0")
    (fun _ => (FetchOutcome.ok none "p8" (9 : ℚ) (9 : ℚ), DlOutcome.ok))
    1 2 92 [] 0 3 _ _ _ h

/-- C2 counterexample: a loop pass can leave the state exactly as it found
it while the while condition still holds.  With one road of length 50 whose
single sampled position already lies in the dedup set, the sampler output is
non-empty, every worker returns the duplicate skip, images_downloaded stays
0 below the ceiling 8, and the pass returns the unchanged state: the loop
body is a fixpoint inside the loop condition, so the orchestrator never
terminates from this (reachable) configuration, refuting the claim that
every iteration increases the counter or hits a terminal condition. -/
theorem orchestrator_stall_cex :
    orchIterate (fun _ => "") (fun _ _ => (FetchOutcome.notOk, DlOutcome.ok))
      (fun g _ => g) [⟨"LineString", 50, fun d => (d, 0)⟩] 2 8 [(0, 0)]
      ⟨0, ⟨0, 0⟩, []⟩ =
      (IterOut.next ⟨0, ⟨0, 0⟩, []⟩, [OEvent.sampled]) ∧
    (((⟨0, ⟨0, 0⟩, []⟩ : LoopSt).downloaded : ℤ) < 8) := by
  constructor
  · norm_num [orchIterate, generate_ll_systematic, processBatch, GetStreetLL,
      pyInt, applyEvents]
    intro h
    exact absurd h (by simp)
  · norm_num

/-- C2 amended: the orchestration loop terminates whenever every continuing
pass strictly increases images_downloaded (in particular when every
non-empty batch yields at least one success): with fuel exceeding the
distance to the ceiling the loop reaches a terminal condition.  Without that
progress assumption termination fails, as the stalling counterexample
shows. -/
theorem orchestrator_conditional_termination (render : ℚ → String)
    (env : ℕ → ℕ → FetchOutcome × DlOutcome)
    (select : List Road → ℕ → List Road) (gdf : List Road) (total : ℕ)
    (maxImages : ℤ) (existing : List (ℚ × ℚ))
    (hprog : ∀ s s' evs,
      orchIterate render env select gdf total maxImages existing s =
        (IterOut.next s', evs) → s.downloaded < s'.downloaded) :
    ∀ (fuel : ℕ) (st : LoopSt), (maxImages - st.downloaded).toNat < fuel →
      (orchLoop render env select gdf total maxImages existing fuel st).1 ≠
        none := by
  intro fuel
  induction fuel with
  | zero => intro st h; exact absurd h (by omega)
  | succ n ih =>
    intro st h
    rw [orchLoop]
    rcases hIt : orchIterate render env select gdf total maxImages existing st
      with ⟨io, evs⟩
    rcases io with _ | _ | st1
    · simp
    · simp
    · have hc : (st.downloaded : ℤ) < maxImages := by
        by_cases hc : (st.downloaded : ℤ) < maxImages
        · exact hc
        · rw [orchIterate, if_neg hc] at hIt
          simp at hIt
      have hlt : st.downloaded < st1.downloaded := hprog st st1 evs hIt
      have hfuel : (maxImages - st1.downloaded).toNat < n := by omega
      simp only []
      exact ih st1 hfuel

/-- Witness for the amended C2: with an empty geometry collection no pass
can continue (the sampler is exhausted at once), so the progress hypothesis
holds vacuously and the loop terminates within the fuel bound. -/
theorem orchestrator_conditional_termination_witness :
    ((orchLoop (fun _ => "") (fun _ _ => (FetchOutcome.notOk, DlOutcome.ok))
      (fun g _ => g) [] 5 1 [] 2 ⟨0, ⟨0, 0⟩, []⟩).1).isSome = true := by
  rw [Option.isSome_iff_ne_none]
  refine orchestrator_conditional_termination _ _ _ _ _ _ _ ?_ 2 _ (by decide)
  intro s s1 evs hIt
  by_cases hc : (s.downloaded : ℤ) < 1
  · rw [orchIterate, if_pos hc] at hIt
    simp [generate_ll_systematic] at hIt
  · rw [orchIterate, if_neg hc] at hIt
    simp at hIt

/-- C10: the worker tests the requested coordinate against the dedup set
while the set is parsed back from filenames that carry resolved coordinates.
The directory below holds the file for the resolved position (1.5, 2.5), so
the dedup set is exactly that pair; a candidate requesting (1, 2) is not in
the set, passes the duplicate check, performs the billable download (one
cost update in the trace), and returns Success with the very filename
already present in the directory, which the write overwrites instead of the
worker returning the duplicate skip. -/
theorem dedup_requested_vs_resolved :
    check_existing_images
      (fun s => if s = "15" then some (15 : ℚ)
        else if s = "25" then some (25 : ℚ) else none)
      (some ["15_25_92.jpg"]) = [((15 : ℚ), (25 : ℚ))] ∧
    ((1 : ℚ), (2 : ℚ)) ∉ [((15 : ℚ), (25 : ℚ))] ∧
    GetStreetLL
      (fun q => if q = 15 then "15" else if q = 25 then "25" else "0")
      (fun _ => (FetchOutcome.ok none "pid" (15 : ℚ) (25 : ℚ), DlOutcome.ok))
      1 2 92 [((15 : ℚ), (25 : ℚ))] 0 3 =
      ((some ⟨none, "pid", 15, 25, "15_25_92.jpg"⟩, 1),
        [Event.metaFetch, Event.fileWrite "15_25_92.jpg",
          Event.costUpdate]) ∧
    "15_25_92.jpg" ∈ ["15_25_92.jpg"] ∧
    applyEvents ⟨0, 0⟩ [Event.metaFetch, Event.fileWrite "15_25_92.jpg",
      Event.costUpdate] = ⟨COST_PER_IMAGE, 1⟩ := by
  refine ⟨?_, ?_, ?_, ?_, ?_⟩
  · simp +decide [check_existing_images, parse_coords, strEnds, strStarts,
      strSplit, strRemoveAll, strRemoveAllAux]
  · norm_num
  · norm_num [GetStreetLL, check_credit_limit, MAX_API_COST, COST_PER_IMAGE,
      runAttempts, MetaParse, mkFilename]
    decide
  · simp
  · norm_num [applyEvents, update_cost_tracking]

/-- Witness for the amended C9 at a one-record list. -/
theorem save_metadata_amended_witness :
    save_metadata [⟨some "2020-01", "pid", 1, 2, "1_2_92.jpg"⟩] =
      some ⟨["date", "pano_id", "lat", "lon", "filename"],
        [⟨some "2020-01", "pid", 1, 2, "1_2_92.jpg"⟩]⟩ :=
  save_metadata_amended.2 [⟨some "2020-01", "pid", 1, 2, "1_2_92.jpg"⟩]
    (by simp)

end SVS
